import Mathlib

/-!
Verification of the `GitHubArtifactDatabase` class
(src/hypothesis-python/src/hypothesis/extra/github_actions.py) against its
natural-language specification. The Python class is shallowly embedded:
its pure data (artifact descriptors, headers, error values) become Lean
structures, and its effectful methods (`_fetch_artifact`, `fetch`, `save`,
`move`, `delete`) become pure functions from an explicit cache state and an
explicit model of the outside world (HTTP outcomes, extraction success) to
an outcome record listing the HTTP requests issued, the filesystem effects
performed, the resulting state, and the Python exception raised, if any.
-/

/-- An artifact descriptor as returned by the GitHub listing API: the code
reads the fields `name`, `created_at` and `archive_download_url` of each
element of the `artifacts` array. `created_at` is kept as the raw string the
API returned, exactly as the Python code does (it never parses it). -/
structure Artifact where
  name : String
  created_at : String
  archive_download_url : String
deriving DecidableEq, Repr

/-- The sort key used on line 101 of the source: Python's
`sorted(..., key=lambda a: a["created_at"])` compares the raw `created_at`
strings lexicographically, which is what `String` order is in Lean. -/
def createdLe (a b : Artifact) : Prop := a.created_at.data ≤ b.created_at.data

instance : DecidableRel createdLe :=
  fun a b => inferInstanceAs (Decidable (a.created_at.data ≤ b.created_at.data))

instance : IsTotal Artifact createdLe :=
  ⟨fun a b => le_total a.created_at.data b.created_at.data⟩

instance : IsTrans Artifact createdLe :=
  ⟨fun _ _ _ h1 h2 => le_trans h1 h2⟩

/-- The name filter of line 100: `lambda a: a["name"] == self.artifact_name`. -/
def matchesName (nm : String) (a : Artifact) : Bool := a.name == nm

/-- Lines 99-102 of the source:
`sorted(filter(lambda a: a["name"] == self.artifact_name, artifacts),
        key=lambda a: a["created_at"])[-1]`.
Python's `sorted` is a stable sort; `List.insertionSort` with a total
transitive relation is the standard stable model of it. Indexing `[-1]`
takes the last element; on an empty list it raises `IndexError`, modelled
here by `none`. -/
def selectArtifact (nm : String) (artifacts : List Artifact) : Option Artifact :=
  (List.insertionSort createdLe (artifacts.filter (matchesName nm))).getLast?

/-- Characterisation of what `[-1]` applied to the stable sort returns: the
element of the list with the lexicographically greatest `created_at`, and,
among several sharing that greatest string, the one occurring latest in the
input order. Defined by direct recursion for comparison with
`selectArtifact`. -/
def lastMaxByCreatedAt : List Artifact → Option Artifact
  | [] => none
  | a :: l =>
    match lastMaxByCreatedAt l with
    | none => some a
    | some b => if b.created_at.data < a.created_at.data then some a else some b

lemma getLast?_cons_ne_nil {α : Type} (a : α) {l : List α} (h : l ≠ []) :
    (a :: l).getLast? = l.getLast? := by
  cases l with
  | nil => exact absurd rfl h
  | cons b t => simp [List.getLast?_cons_cons]

lemma mem_of_getLast?_eq {α : Type} {l : List α} {a : α}
    (h : l.getLast? = some a) : a ∈ l := by
  obtain ⟨hne, hx⟩ := List.mem_getLast?_eq_getLast (Option.mem_def.mpr h)
  exact hx ▸ List.getLast_mem hne

lemma orderedInsert_ne_nil (a : Artifact) (l : List Artifact) :
    List.orderedInsert createdLe a l ≠ [] := by
  intro h
  have := congrArg List.length h
  rw [List.orderedInsert_length] at this
  simp at this

/-- Where `orderedInsert` puts `a` relative to the last element of an
already-sorted list: the inserted element ends up last exactly when it is
not `createdLe` any existing element, and in particular not the current
last one. -/
lemma getLast?_orderedInsert (a : Artifact) :
    ∀ (s : List Artifact), s.Sorted createdLe →
      (List.orderedInsert createdLe a s).getLast? =
        match s.getLast? with
        | none => some a
        | some c => if createdLe a c then some c else some a
  | [], _ => by simp
  | b :: t, hs => by
    rcases List.sorted_cons.mp hs with ⟨hb, ht⟩
    by_cases hab : createdLe a b
    · rw [List.orderedInsert, if_pos hab]
      rw [getLast?_cons_ne_nil a (by simp)]
      cases htl : (b :: t).getLast? with
      | none => simp at htl
      | some c =>
        have hc : c ∈ b :: t := mem_of_getLast?_eq htl
        have hac : createdLe a c := by
          rcases List.mem_cons.mp hc with hcb | hct
          · exact hcb ▸ hab
          · exact Trans.trans hab (hb c hct)
        simp [htl, if_pos hac]
    · rw [List.orderedInsert, if_neg hab]
      rw [getLast?_cons_ne_nil b (orderedInsert_ne_nil a t)]
      rw [getLast?_orderedInsert a t ht]
      cases t with
      | nil => simp [if_neg hab]
      | cons x t' =>
        rw [getLast?_cons_ne_nil b (by simp)]

/-- The last element of the stable sort is exactly the latest-in-input
maximum of the `created_at` key. -/
lemma getLast?_insertionSort_eq_lastMax :
    ∀ l : List Artifact,
      (List.insertionSort createdLe l).getLast? = lastMaxByCreatedAt l
  | [] => rfl
  | a :: l => by
    rw [show List.insertionSort createdLe (a :: l) =
          List.orderedInsert createdLe a (List.insertionSort createdLe l) from rfl]
    rw [getLast?_orderedInsert a _ (List.sorted_insertionSort createdLe l)]
    rw [getLast?_insertionSort_eq_lastMax l]
    cases h : lastMaxByCreatedAt l with
    | none => simp [lastMaxByCreatedAt, h]
    | some c =>
      simp only [lastMaxByCreatedAt, h]
      by_cases hac : createdLe a c
      · rw [if_pos hac, if_neg (not_lt.mpr hac)]
      · rw [if_neg hac, if_pos (not_le.mp hac)]

lemma selectArtifact_eq_lastMax (nm : String) (artifacts : List Artifact) :
    selectArtifact nm artifacts =
      lastMaxByCreatedAt (artifacts.filter (matchesName nm)) :=
  getLast?_insertionSort_eq_lastMax _

lemma lastMax_eq_none_iff (l : List Artifact) :
    lastMaxByCreatedAt l = none ↔ l = [] := by
  cases l with
  | nil => simp [lastMaxByCreatedAt]
  | cons a t =>
    simp only [lastMaxByCreatedAt]
    cases lastMaxByCreatedAt t with
    | none => simp
    | some b =>
      by_cases h : b.created_at.data < a.created_at.data <;> simp [h]

lemma lastMax_mem : ∀ {l : List Artifact} {a : Artifact},
    lastMaxByCreatedAt l = some a → a ∈ l := by
  intro l
  induction l with
  | nil => intro a h; simp [lastMaxByCreatedAt] at h
  | cons x t ih =>
    intro a h
    simp only [lastMaxByCreatedAt] at h
    split at h
    · simp at h
      simp [h]
    · next b hb =>
      split at h
      · simp at h
        simp [h]
      · simp at h
        exact List.mem_cons_of_mem x (ih (h ▸ hb))

lemma lastMax_isMax : ∀ {l : List Artifact} {a : Artifact},
    lastMaxByCreatedAt l = some a → ∀ b ∈ l, b.created_at.data ≤ a.created_at.data := by
  intro l
  induction l with
  | nil => intro a h; simp [lastMaxByCreatedAt] at h
  | cons x t ih =>
    intro a h b hb
    simp only [lastMaxByCreatedAt] at h
    split at h
    · next hnone =>
      simp at h
      have : t = [] := (lastMax_eq_none_iff t).mp hnone
      subst this
      simp at hb
      simp [hb, h]
    · next c hc =>
      rcases List.mem_cons.mp hb with hbx | hbt
      · subst hbx
        split at h
        · simp at h; simp [h]
        · next hlt =>
          simp at h; subst h
          exact not_lt.mp hlt
      · have hbc := ih hc b hbt
        split at h
        · next hlt =>
          simp at h; subst h
          exact le_of_lt (lt_of_le_of_lt hbc hlt)
        · simp at h; subst h
          exact hbc

/-- The selected element is the LAST occurrence of the maximum: everything
strictly after it in input order has a strictly smaller `created_at`. -/
lemma lastMax_splits : ∀ {l : List Artifact} {a : Artifact},
    lastMaxByCreatedAt l = some a →
      ∃ l₁ l₂, l = l₁ ++ a :: l₂ ∧ ∀ b ∈ l₂, b.created_at.data < a.created_at.data := by
  intro l
  induction l with
  | nil => intro a h; simp [lastMaxByCreatedAt] at h
  | cons x t ih =>
    intro a h
    simp only [lastMaxByCreatedAt] at h
    split at h
    · next hnone =>
      simp at h
      have : t = [] := (lastMax_eq_none_iff t).mp hnone
      subst this; subst h
      exact ⟨[], [], rfl, by simp⟩
    · next c hc =>
      split at h
      · next hlt =>
        simp at h; subst h
        refine ⟨[], t, rfl, fun b hb => ?_⟩
        exact lt_of_le_of_lt (lastMax_isMax hc b hb) hlt
      · simp at h; subst h
        rcases ih hc with ⟨l₁, l₂, heq, hlast⟩
        exact ⟨x :: l₁, l₂, by simp [heq], hlast⟩

/-! ## The cache state, the outside world, and the effect model -/

/-- The mutable attributes set by `__init__` (lines 49-66). `token` is the
value of `getenv("GITHUB_TOKEN")` at construction time: `none` models
Python's `None` when the variable is unset. -/
structure CacheState where
  owner : String
  repo : String
  artifact_name : String
  path : String
  token : Option String
  artifact_downloaded : Bool
deriving DecidableEq, Repr

/-- Constructor `__init__(owner, repo, artifact_name, path)`: stores the
arguments, reads `GITHUB_TOKEN` from the process environment (passed here
explicitly as `env_github_token`), and starts with
`_artifact_downloaded = False` (line 66). -/
def GitHubArtifactDatabase.init (owner repo artifact_name path : String)
    (env_github_token : Option String) : CacheState :=
  { owner := owner, repo := repo, artifact_name := artifact_name,
    path := path, token := env_github_token, artifact_downloaded := false }

/-- A Python exception value, identified by the exception class the code
raises and the message it is constructed with. -/
structure PyError where
  pyType : String
  msg : String
deriving DecidableEq, Repr

/-- One HTTP request as issued through `requests.get`: URL, header list, and
the `stream` / `allow_redirects` keyword arguments (for a plain
`requests.get` without those keywords, the library defaults are
`stream=False` and, for GET, `allow_redirects=True`). -/
structure HttpRequest where
  url : String
  headers : List (String × String)
  stream : Bool
  allow_redirects : Bool
deriving DecidableEq, Repr

/-- The outcome the transport produces for one request: a
`requests.exceptions.ConnectionError` before any response, an HTTP error
status that makes `raise_for_status()` raise
`requests.exceptions.HTTPError`, or a successful response carrying `α`. -/
inductive HttpOutcome (α : Type) where
  | connError : HttpOutcome α
  | httpError : Nat → HttpOutcome α
  | ok : α → HttpOutcome α
deriving DecidableEq, Repr

/-- The nondeterministic environment a single `_fetch_artifact` call runs
in: what the listing request returns, what the download request returns,
and whether `shutil.unpack_archive` succeeds on the downloaded bytes. -/
structure World where
  listing : HttpOutcome (List Artifact)
  download : HttpOutcome Unit
  unpackOk : Bool

/-- Filesystem side effects of one `_fetch_artifact` call, in terms of the
operations the code performs: creation/deletion of the
`tempfile.NamedTemporaryFile`, the `mkdir_p(self.path)` call, and whether
`shutil.unpack_archive` was started and whether it completed. -/
structure FSEffect where
  tempFileCreated : Bool
  tempFileDeleted : Bool
  mkdirRan : Bool
  unpackStarted : Bool
  unpackCompleted : Bool
deriving DecidableEq, Repr

def FSEffect.noop : FSEffect :=
  { tempFileCreated := false, tempFileDeleted := false, mkdirRan := false,
    unpackStarted := false, unpackCompleted := false }

/-- Everything one `_fetch_artifact` call does: the resulting attribute
state, the HTTP requests issued in order, the filesystem effects, whether
`super().__init__(self.path)` re-initialised the delegate store (line 134),
and the exception propagated to the caller, if any. -/
structure FetchOutcome where
  state : CacheState
  requests : List HttpRequest
  fs : FSEffect
  reinitialized : Bool
  error : Option PyError
deriving DecidableEq, Repr

/-- Python's `f"Bearer {self.token}"`: `str(None)` is the literal `"None"`,
so with no token configured the header value is `"Bearer None"`. -/
def bearerValue : Option String → String
  | none => "Bearer None"
  | some t => "Bearer " ++ t

/-- Headers of the listing request, lines 79-83. Note the trailing space in
the version string on line 81: `"2022-11-28 "`. -/
def listingHeaders (token : Option String) : List (String × String) :=
  [("Accept", "application/vnd.github+json"),
   ("X-GitHub-Api-Version", "2022-11-28 "),
   ("Authorization", bearerValue token)]

/-- Headers of the download request, lines 109-113 (no trailing space on
line 111). -/
def downloadHeaders (token : Option String) : List (String × String) :=
  [("Accept", "application/vnd.github+json"),
   ("X-GitHub-Api-Version", "2022-11-28"),
   ("Authorization", bearerValue token)]

/-- URL of the listing request, line 78. -/
def listingUrl (owner repo : String) : String :=
  "https://api.github.com/repos/" ++ owner ++ "/" ++ repo ++ "/actions/artifacts"

def listingRequest (st : CacheState) : HttpRequest :=
  { url := listingUrl st.owner st.repo, headers := listingHeaders st.token,
    stream := false, allow_redirects := true }

/-- Line 107-116: `requests.get(artifact["archive_download_url"], ...,
stream=True, allow_redirects=True)`. -/
def downloadRequest (st : CacheState) (a : Artifact) : HttpRequest :=
  { url := a.archive_download_url, headers := downloadHeaders st.token,
    stream := true, allow_redirects := true }

/-- Lines 88-90. -/
def connListingError : PyError :=
  { pyType := "RuntimeError",
    msg := "Could not connect to GitHub to get the latest artifact." }

/-- Lines 93-95. -/
def httpListingError : PyError :=
  { pyType := "RuntimeError",
    msg := "Could not get the latest artifact from GitHub. Check that the repository exists and that you\x27ve provided a valid token (GITHUB_TOKEN)." }

/-- Lines 119-121. -/
def connDownloadError : PyError :=
  { pyType := "RuntimeError",
    msg := "Could not connect to GitHub to download the artifact." }

/-- Lines 123-126 (the string literal is the same as on lines 94-95). -/
def httpDownloadError : PyError :=
  { pyType := "RuntimeError",
    msg := "Could not get the latest artifact from GitHub. Check that the repository exists and that you\x27ve provided a valid token (GITHUB_TOKEN)." }

/-- Indexing an empty list with `[-1]` on line 102 raises Python's builtin
`IndexError`. -/
def emptySelectionError : PyError :=
  { pyType := "IndexError", msg := "list index out of range" }

/-- A failure of `shutil.unpack_archive` on line 132 (e.g.
`shutil.ReadError` on a body that is not a valid zip). The exact class
depends on the corrupt input; only its presence matters here. -/
def unpackError : PyError :=
  { pyType := "shutil.ReadError", msg := "unpack_archive failed" }

/-- Shallow embedding of `_fetch_artifact` (lines 71-135), faithful to its
control flow: early return when already downloaded; listing request with
its two `except` clauses; selection by stable sort + `[-1]`; temporary
file; download request with its two `except` clauses; `mkdir_p` and then
`unpack_archive`; `super().__init__`; and only then
`self._artifact_downloaded = True` (line 135). The `with` block guarantees
the temporary file is deleted on every path after its creation. -/
def fetchArtifact (st : CacheState) (w : World) : FetchOutcome :=
  if st.artifact_downloaded then
    { state := st, requests := [], fs := FSEffect.noop,
      reinitialized := false, error := none }
  else
    match w.listing with
    | HttpOutcome.connError =>
      { state := st, requests := [listingRequest st], fs := FSEffect.noop,
        reinitialized := false, error := some connListingError }
    | HttpOutcome.httpError _ =>
      { state := st, requests := [listingRequest st], fs := FSEffect.noop,
        reinitialized := false, error := some httpListingError }
    | HttpOutcome.ok artifacts =>
      match selectArtifact st.artifact_name artifacts with
      | none =>
        { state := st, requests := [listingRequest st], fs := FSEffect.noop,
          reinitialized := false, error := some emptySelectionError }
      | some artifact =>
        match w.download with
        | HttpOutcome.connError =>
          { state := st,
            requests := [listingRequest st, downloadRequest st artifact],
            fs := { tempFileCreated := true, tempFileDeleted := true,
                    mkdirRan := false, unpackStarted := false,
                    unpackCompleted := false },
            reinitialized := false, error := some connDownloadError }
        | HttpOutcome.httpError _ =>
          { state := st,
            requests := [listingRequest st, downloadRequest st artifact],
            fs := { tempFileCreated := true, tempFileDeleted := true,
                    mkdirRan := false, unpackStarted := false,
                    unpackCompleted := false },
            reinitialized := false, error := some httpDownloadError }
        | HttpOutcome.ok _ =>
          if w.unpackOk then
            { state := { st with artifact_downloaded := true },
              requests := [listingRequest st, downloadRequest st artifact],
              fs := { tempFileCreated := true, tempFileDeleted := true,
                      mkdirRan := true, unpackStarted := true,
                      unpackCompleted := true },
              reinitialized := true, error := none }
          else
            { state := st,
              requests := [listingRequest st, downloadRequest st artifact],
              fs := { tempFileCreated := true, tempFileDeleted := true,
                      mkdirRan := true, unpackStarted := true,
                      unpackCompleted := false },
              reinitialized := false, error := some unpackError }

/-- `fetch(key)` (lines 137-140): run `_fetch_artifact()`, then delegate to
`DirectoryBasedExampleDatabase.fetch` — an external collaborator, modelled
as an abstract function `delegate` from keys to the list of stored values
for the extracted directory. An exception in `_fetch_artifact` propagates
and the delegate is never consulted. Returns the requests issued and
either the exception or the delegate's answer. -/
def GitHubArtifactDatabase.fetch (st : CacheState) (w : World)
    (delegate : List Nat → List (List Nat)) (key : List Nat) :
    List HttpRequest × Except PyError (List (List Nat)) :=
  let out := fetchArtifact st w
  match out.error with
  | some e => (out.requests, Except.error e)
  | none => (out.requests, Except.ok (delegate key))

/-- Result of calling one of the mutating methods: they do nothing but
raise, so the outcome is just the exception plus the (absent) request and
filesystem activity. -/
structure MutationOutcome where
  requests : List HttpRequest
  fs : FSEffect
  error : Option PyError
deriving DecidableEq, Repr

/-- The exception raised by each of `save`, `move` and `delete` (the same
string literal appears on lines 144-146, 149-151 and 154-156). -/
def readOnlyError : PyError :=
  { pyType := "RuntimeError",
    msg := "This database is read-only. Please wrap this class with ReadOnlyDatabase, i.e. ReadOnlyDatabase(GitHubArtifactsDatabase(...))." }

/-- `save` (lines 143-146): unconditionally raises. -/
def GitHubArtifactDatabase.save (st : CacheState) (key value : List Nat) :
    MutationOutcome :=
  { requests := [], fs := FSEffect.noop, error := some readOnlyError }

/-- `move` (lines 148-151): unconditionally raises. -/
def GitHubArtifactDatabase.move (st : CacheState) (key value : List Nat) :
    MutationOutcome :=
  { requests := [], fs := FSEffect.noop, error := some readOnlyError }

/-- `delete` (lines 153-156): unconditionally raises. -/
def GitHubArtifactDatabase.delete (st : CacheState) (key value : List Nat) :
    MutationOutcome :=
  { requests := [], fs := FSEffect.noop, error := some readOnlyError }

/-! ## Concrete fixtures for witnesses and counterexamples -/

def exArt1 : Artifact :=
  { name := "db", created_at := "2024-01-01T00:00:00Z",
    archive_download_url := "https://api.github.com/repos/user/repo/actions/artifacts/1/zip" }

def exArt2 : Artifact :=
  { name := "db", created_at := "2024-02-01T00:00:00Z",
    archive_download_url := "https://api.github.com/repos/user/repo/actions/artifacts/2/zip" }

def exArt3 : Artifact :=
  { name := "other", created_at := "2024-03-01T00:00:00Z",
    archive_download_url := "https://api.github.com/repos/user/repo/actions/artifacts/3/zip" }

/-- Two artifacts with the same name and byte-identical `created_at`,
distinguished only by their download URL. -/
def exTie1 : Artifact :=
  { name := "db", created_at := "2024-01-01T00:00:00Z",
    archive_download_url := "https://api.github.com/repos/user/repo/actions/artifacts/8/zip" }

def exTie2 : Artifact :=
  { name := "db", created_at := "2024-01-01T00:00:00Z",
    archive_download_url := "https://api.github.com/repos/user/repo/actions/artifacts/9/zip" }

def exState : CacheState :=
  GitHubArtifactDatabase.init "user" "repo" "db" "/home/u/.hypothesis/ci" (some "tok")

def exWorldOk : World :=
  { listing := HttpOutcome.ok [exArt1, exArt2, exArt3],
    download := HttpOutcome.ok (), unpackOk := true }

def exWorldConnL : World :=
  { listing := HttpOutcome.connError, download := HttpOutcome.ok (), unpackOk := true }

def exWorldHttpL : World :=
  { listing := HttpOutcome.httpError 404, download := HttpOutcome.ok (), unpackOk := true }

def exWorldNoMatch : World :=
  { listing := HttpOutcome.ok [exArt3], download := HttpOutcome.ok (), unpackOk := true }

def exWorldConnD : World :=
  { listing := HttpOutcome.ok [exArt1, exArt2, exArt3],
    download := HttpOutcome.connError, unpackOk := true }

def exWorldHttpD : World :=
  { listing := HttpOutcome.ok [exArt1, exArt2, exArt3],
    download := HttpOutcome.httpError 403, unpackOk := true }

def exWorldUnpackFail : World :=
  { listing := HttpOutcome.ok [exArt1, exArt2, exArt3],
    download := HttpOutcome.ok (), unpackOk := false }

/-! ## Helper lemmas shared by the claim theorems -/

lemma fetchArtifact_state_of_error (st : CacheState) (w : World)
    (h : st.artifact_downloaded = false)
    (he : (fetchArtifact st w).error.isSome = true) :
    (fetchArtifact st w).state = st := by
  rcases w with ⟨listing, download, u⟩
  rcases listing with _ | s | arts
  · simp [fetchArtifact, h]
  · simp [fetchArtifact, h]
  · cases hsel : selectArtifact st.artifact_name arts with
    | none => simp [fetchArtifact, h, hsel]
    | some a =>
      rcases download with _ | s | c
      · simp [fetchArtifact, h, hsel]
      · simp [fetchArtifact, h, hsel]
      · cases u
        · simp [fetchArtifact, h, hsel]
        · simp [fetchArtifact, h, hsel] at he

lemma fetchArtifact_requests_head (st : CacheState) (w : World)
    (h : st.artifact_downloaded = false) :
    (fetchArtifact st w).requests.head? = some (listingRequest st) := by
  rcases w with ⟨listing, download, u⟩
  rcases listing with _ | s | arts
  · simp [fetchArtifact, h]
  · simp [fetchArtifact, h]
  · cases hsel : selectArtifact st.artifact_name arts with
    | none => simp [fetchArtifact, h, hsel]
    | some a =>
      rcases download with _ | s | c
      · simp [fetchArtifact, h, hsel]
      · simp [fetchArtifact, h, hsel]
      · cases u <;> simp [fetchArtifact, h, hsel]

/-! ## Claim theorems -/

/-- Claim C1: for every key and value, and in every state (downloaded or
not), each of `save`, `move` and `delete` fails with the read-only error —
a `RuntimeError` whose message instructs the caller to wrap the database in
`ReadOnlyDatabase` — and performs no filesystem or network I/O (no
requests, no filesystem effects). The spec's `ReadOnlyError` taxonomy
entry is realised in the code as this `RuntimeError`. -/
theorem claim_C1_readonly_guard :
    ∀ (st : CacheState) (key value : List Nat),
      GitHubArtifactDatabase.save st key value =
        { requests := [], fs := FSEffect.noop, error := some readOnlyError } ∧
      GitHubArtifactDatabase.move st key value =
        { requests := [], fs := FSEffect.noop, error := some readOnlyError } ∧
      GitHubArtifactDatabase.delete st key value =
        { requests := [], fs := FSEffect.noop, error := some readOnlyError } ∧
      readOnlyError.pyType = "RuntimeError" ∧
      readOnlyError.msg = "This database is read-only. Please wrap this class with ReadOnlyDatabase, i.e. ReadOnlyDatabase(GitHubArtifactsDatabase(...))." :=
  fun _ _ _ => ⟨rfl, rfl, rfl, rfl, rfl⟩

/-- Witness for C1 at a concrete state (after a successful download, the
guard still rejects all three mutations). -/
theorem claim_C1_readonly_guard_witness :
    GitHubArtifactDatabase.save { exState with artifact_downloaded := true } [1] [2] =
      { requests := [], fs := FSEffect.noop, error := some readOnlyError } ∧
    GitHubArtifactDatabase.delete exState [1] [2] =
      { requests := [], fs := FSEffect.noop, error := some readOnlyError } :=
  ⟨(claim_C1_readonly_guard { exState with artifact_downloaded := true } [1] [2]).1,
   (claim_C1_readonly_guard exState [1] [2]).2.2.1⟩

/-- Claim C2: once `_artifact_downloaded` is true, `fetch(key)` issues no
HTTP request and returns exactly the delegate Local Store's answer for the
same key; moreover a successful fetch from the not-yet-downloaded state
sets the flag, so a second `_fetch_artifact` call issues no request at all
— the listing+download round trip happens at most once. -/
theorem claim_C2_lazy_delegation :
    (∀ (st : CacheState) (w : World) (delegate : List Nat → List (List Nat))
        (key : List Nat), st.artifact_downloaded = true →
        GitHubArtifactDatabase.fetch st w delegate key =
          ([], Except.ok (delegate key))) ∧
    (∀ (st : CacheState) (w w' : World),
        st.artifact_downloaded = false → (fetchArtifact st w).error = none →
        (fetchArtifact st w).state.artifact_downloaded = true ∧
        (fetchArtifact (fetchArtifact st w).state w').requests = []) := by
  constructor
  · intro st w delegate key h
    simp [GitHubArtifactDatabase.fetch, fetchArtifact, h]
  · intro st w w' hdl herr
    rcases w with ⟨listing, download, u⟩
    rcases listing with _ | s | arts
    · simp [fetchArtifact, hdl] at herr
    · simp [fetchArtifact, hdl] at herr
    · cases hsel : selectArtifact st.artifact_name arts with
      | none => simp [fetchArtifact, hdl, hsel] at herr
      | some a =>
        rcases download with _ | s | c
        · simp [fetchArtifact, hdl, hsel] at herr
        · simp [fetchArtifact, hdl, hsel] at herr
        · cases u
          · simp [fetchArtifact, hdl, hsel] at herr
          · constructor
            · simp [fetchArtifact, hdl, hsel]
            · simp [fetchArtifact, hdl, hsel]

/-- Witness for C2: with the flag already set, a concrete `fetch` returns
the delegate's values with no requests; and a concrete successful fetch
sets the flag and a retry is silent. -/
theorem claim_C2_lazy_delegation_witness :
    GitHubArtifactDatabase.fetch { exState with artifact_downloaded := true }
        exWorldOk (fun _ => [[7, 8]]) [0] = ([], Except.ok [[7, 8]]) ∧
    (fetchArtifact exState exWorldOk).state.artifact_downloaded = true ∧
    (fetchArtifact (fetchArtifact exState exWorldOk).state exWorldConnL).requests = [] :=
  ⟨claim_C2_lazy_delegation.1 { exState with artifact_downloaded := true }
      exWorldOk (fun _ => [[7, 8]]) [0] rfl,
   (claim_C2_lazy_delegation.2 exState exWorldOk exWorldConnL rfl (by decide)).1,
   (claim_C2_lazy_delegation.2 exState exWorldOk exWorldConnL rfl (by decide)).2⟩

/-- Claim C3: whenever the listing returns at least one descriptor whose
name equals the configured `artifact_name`, the fetch selects a matching
descriptor whose `created_at` is maximal among the matches and issues the
download request to exactly that descriptor's `archive_download_url`;
selection is a pure function of the listing, so ties are broken
deterministically given identical input ordering. The second conjunct is
the claim's concrete instance: for
`[(db, t1), (db, t2), (other, t3)]` with `t2 > t1` the `t2` descriptor is
selected. -/
theorem claim_C3_selects_latest :
    (∀ (st : CacheState) (w : World) (arts : List Artifact),
      st.artifact_downloaded = false →
      w.listing = HttpOutcome.ok arts →
      arts.filter (matchesName st.artifact_name) ≠ [] →
      ∃ a, selectArtifact st.artifact_name arts = some a ∧
        a ∈ arts.filter (matchesName st.artifact_name) ∧
        (∀ b ∈ arts.filter (matchesName st.artifact_name),
          b.created_at.data ≤ a.created_at.data) ∧
        (fetchArtifact st w).requests.map HttpRequest.url =
          [listingUrl st.owner st.repo, a.archive_download_url]) ∧
    selectArtifact "db" [exArt1, exArt2, exArt3] = some exArt2 := by
  constructor
  · intro st w arts hdl hlist hne
    have ha : ∃ a, lastMaxByCreatedAt (arts.filter (matchesName st.artifact_name)) = some a := by
      cases hsel : lastMaxByCreatedAt (arts.filter (matchesName st.artifact_name)) with
      | none => exact absurd ((lastMax_eq_none_iff _).mp hsel) hne
      | some a => exact ⟨a, rfl⟩
    obtain ⟨a, ha⟩ := ha
    have hsel : selectArtifact st.artifact_name arts = some a :=
      (selectArtifact_eq_lastMax st.artifact_name arts).trans ha
    refine ⟨a, hsel, lastMax_mem ha, lastMax_isMax ha, ?_⟩
    rcases w with ⟨listing, download, u⟩
    cases hlist
    rcases download with _ | s | c
    · simp [fetchArtifact, hdl, hsel, listingRequest, downloadRequest]
    · simp [fetchArtifact, hdl, hsel, listingRequest, downloadRequest]
    · cases u <;> simp [fetchArtifact, hdl, hsel, listingRequest, downloadRequest]
  · decide

/-- Witness for C3 at the claim's concrete listing. -/
theorem claim_C3_selects_latest_witness :
    ∃ a, selectArtifact exState.artifact_name [exArt1, exArt2, exArt3] = some a ∧
      a ∈ [exArt1, exArt2, exArt3].filter (matchesName exState.artifact_name) ∧
      (∀ b ∈ [exArt1, exArt2, exArt3].filter (matchesName exState.artifact_name),
        b.created_at.data ≤ a.created_at.data) ∧
      (fetchArtifact exState exWorldOk).requests.map HttpRequest.url =
        [listingUrl exState.owner exState.repo, a.archive_download_url] :=
  claim_C3_selects_latest.1 exState exWorldOk [exArt1, exArt2, exArt3]
    rfl rfl (by decide)

/-- Claim C4: `_artifact_downloaded` starts false at construction, becomes
true exactly when a fetch from the not-downloaded state runs to the end
with no exception (line 135 is the final statement of `_fetch_artifact`),
never reverts, and after any failure the state is unchanged, so the next
call re-attempts the fetch from the beginning — its first request is again
the listing request. -/
theorem claim_C4_downloaded_monotone :
    (∀ owner repo artifact_name path token,
      (GitHubArtifactDatabase.init owner repo artifact_name path token).artifact_downloaded = false) ∧
    (∀ (st : CacheState) (w : World), st.artifact_downloaded = true →
      (fetchArtifact st w).state = st) ∧
    (∀ (st : CacheState) (w : World), st.artifact_downloaded = false →
      ((fetchArtifact st w).state.artifact_downloaded = true ↔
        (fetchArtifact st w).error = none)) ∧
    (∀ (st : CacheState) (w w' : World), st.artifact_downloaded = false →
      (fetchArtifact st w).error.isSome = true →
      (fetchArtifact (fetchArtifact st w).state w').requests.head? =
        some (listingRequest st)) := by
  refine ⟨fun _ _ _ _ _ => rfl, ?_, ?_, ?_⟩
  · intro st w h
    simp [fetchArtifact, h]
  · intro st w hdl
    rcases w with ⟨listing, download, u⟩
    rcases listing with _ | s | arts
    · simp [fetchArtifact, hdl]
    · simp [fetchArtifact, hdl]
    · cases hsel : selectArtifact st.artifact_name arts with
      | none => simp [fetchArtifact, hdl, hsel]
      | some a =>
        rcases download with _ | s | c
        · simp [fetchArtifact, hdl, hsel]
        · simp [fetchArtifact, hdl, hsel]
        · cases u <;> simp [fetchArtifact, hdl, hsel]
  · intro st w w' hdl herr
    rw [fetchArtifact_state_of_error st w hdl herr]
    exact fetchArtifact_requests_head st w' hdl

/-- Witness for C4: a concrete failing fetch (connection error on the
listing) leaves the flag false and the retry's first request is the
listing request again. -/
theorem claim_C4_downloaded_monotone_witness :
    ((fetchArtifact exState exWorldConnL).state.artifact_downloaded = true ↔
      (fetchArtifact exState exWorldConnL).error = none) ∧
    (fetchArtifact (fetchArtifact exState exWorldConnL).state exWorldOk).requests.head? =
      some (listingRequest exState) :=
  ⟨claim_C4_downloaded_monotone.2.2.1 exState exWorldConnL rfl,
   claim_C4_downloaded_monotone.2.2.2 exState exWorldConnL exWorldOk rfl (by decide)⟩

/-- Counterexample to claim C5. The claim says a listing with zero
descriptors named `artifact_name` makes the fetch fail with a dedicated,
descriptive `ArtifactNotFoundError`. The code defines no such class:
line 102 indexes an empty sorted list with `[-1]`, so exactly the opaque
empty-selection error — Python's builtin `IndexError("list index out of
range")`, naming neither the artifact nor the repository — propagates.
Here the listing returns only an artifact named `"other"` while the
configured name is `"db"`. -/
theorem claim_C5_counterexample :
    (fetchArtifact exState exWorldNoMatch).error = some emptySelectionError ∧
    emptySelectionError.pyType = "IndexError" ∧
    emptySelectionError.msg = "list index out of range" := by
  decide

/-- Amended claim C5: if the listing succeeds but zero descriptors match
the configured `artifact_name`, the fetch fails with Python's opaque
builtin `IndexError` from the empty `[-1]` selection (no dedicated
`ArtifactNotFoundError` exists in the code); the local directory is left
untouched and the state unchanged. -/
theorem claim_C5_amended_empty_selection :
    ∀ (st : CacheState) (w : World) (arts : List Artifact),
      st.artifact_downloaded = false →
      w.listing = HttpOutcome.ok arts →
      arts.filter (matchesName st.artifact_name) = [] →
      (fetchArtifact st w).error = some emptySelectionError ∧
      (fetchArtifact st w).fs = FSEffect.noop ∧
      (fetchArtifact st w).state = st := by
  intro st w arts hdl hlist hnone
  have hsel : selectArtifact st.artifact_name arts = none := by
    rw [selectArtifact_eq_lastMax, lastMax_eq_none_iff]
    exact hnone
  rcases w with ⟨listing, download, u⟩
  cases hlist
  simp [fetchArtifact, hdl, hsel]

/-- Witness for the amended C5 at the concrete no-match listing. -/
theorem claim_C5_amended_empty_selection_witness :
    (fetchArtifact exState exWorldNoMatch).error = some emptySelectionError ∧
    (fetchArtifact exState exWorldNoMatch).fs = FSEffect.noop ∧
    (fetchArtifact exState exWorldNoMatch).state = exState :=
  claim_C5_amended_empty_selection exState exWorldNoMatch [exArt3]
    rfl rfl (by decide)

/-- Counterexample to claim C6. The claim asserts the connection-failure
error and the non-2xx error "are two distinct error types". In the code
every one of the four raises is the same Python exception class,
`RuntimeError` (lines 88, 93, 119, 123); the two failure modes are
distinguished only by message. Shown at the listing step and at the
download step of concrete fetches. -/
theorem claim_C6_counterexample :
    (fetchArtifact exState exWorldConnL).error.map PyError.pyType =
      (fetchArtifact exState exWorldHttpL).error.map PyError.pyType ∧
    (fetchArtifact exState exWorldConnD).error.map PyError.pyType =
      (fetchArtifact exState exWorldHttpD).error.map PyError.pyType ∧
    (fetchArtifact exState exWorldConnL).error.map PyError.pyType =
      some "RuntimeError" := by
  decide

/-- Amended claim C6: for both the listing and the download request, a
connection failure before any HTTP response raises a `RuntimeError` saying
it could not connect, while a non-2xx response raises a `RuntimeError`
whose message names repository existence and token validity as the likely
causes; the two failures carry distinct messages but the same Python
exception type (`RuntimeError`), not two distinct types. -/
theorem claim_C6_amended_error_taxonomy :
    (∀ (st : CacheState) (w : World), st.artifact_downloaded = false →
      (w.listing = HttpOutcome.connError →
        (fetchArtifact st w).error = some connListingError) ∧
      (∀ s, w.listing = HttpOutcome.httpError s →
        (fetchArtifact st w).error = some httpListingError) ∧
      (∀ arts a, w.listing = HttpOutcome.ok arts →
        selectArtifact st.artifact_name arts = some a →
        (w.download = HttpOutcome.connError →
          (fetchArtifact st w).error = some connDownloadError) ∧
        (∀ s, w.download = HttpOutcome.httpError s →
          (fetchArtifact st w).error = some httpDownloadError))) ∧
    connListingError ≠ httpListingError ∧
    connDownloadError ≠ httpDownloadError ∧
    connListingError.pyType = "RuntimeError" ∧
    httpListingError.pyType = "RuntimeError" ∧
    httpDownloadError = httpListingError ∧
    httpListingError.msg = "Could not get the latest artifact from GitHub. Check that the repository exists and that you\x27ve provided a valid token (GITHUB_TOKEN)." ∧
    connListingError.msg = "Could not connect to GitHub to get the latest artifact." ∧
    connDownloadError.msg = "Could not connect to GitHub to download the artifact." := by
  refine ⟨?_, by decide, by decide, rfl, rfl, rfl, rfl, rfl, rfl⟩
  intro st w hdl
  refine ⟨?_, ?_, ?_⟩
  · intro hconn
    rcases w with ⟨listing, download, u⟩
    cases hconn
    simp [fetchArtifact, hdl]
  · intro s hhttp
    rcases w with ⟨listing, download, u⟩
    cases hhttp
    simp [fetchArtifact, hdl]
  · intro arts a hlist hsel
    rcases w with ⟨listing, download, u⟩
    cases hlist
    constructor
    · intro hconn
      cases hconn
      simp [fetchArtifact, hdl, hsel]
    · intro s hhttp
      cases hhttp
      simp [fetchArtifact, hdl, hsel]

/-- Witness for the amended C6 at concrete failing worlds. -/
theorem claim_C6_amended_error_taxonomy_witness :
    (fetchArtifact exState exWorldConnL).error = some connListingError ∧
    (fetchArtifact exState exWorldHttpL).error = some httpListingError ∧
    (fetchArtifact exState exWorldConnD).error = some connDownloadError ∧
    (fetchArtifact exState exWorldHttpD).error = some httpDownloadError :=
  ⟨(claim_C6_amended_error_taxonomy.1 exState exWorldConnL rfl).1 rfl,
   (claim_C6_amended_error_taxonomy.1 exState exWorldHttpL rfl).2.1 404 rfl,
   ((claim_C6_amended_error_taxonomy.1 exState exWorldConnD rfl).2.2
      [exArt1, exArt2, exArt3] exArt2 rfl (by decide)).1 rfl,
   ((claim_C6_amended_error_taxonomy.1 exState exWorldHttpD rfl).2.2
      [exArt1, exArt2, exArt3] exArt2 rfl (by decide)).2 403 rfl⟩

/-- Counterexample to claim C7. The claim says that on every failing fetch
path — including extraction failure — the local backing directory is not
created, not modified, and never left partially populated. In the code
`mkdir_p(self.path)` (line 131) runs before `shutil.unpack_archive`
(line 132), so when extraction fails the directory has already been
created, and `unpack_archive` has started writing into it without
completing. Shown on a concrete fetch whose download succeeds but whose
archive fails to unpack. -/
theorem claim_C7_counterexample :
    (fetchArtifact exState exWorldUnpackFail).error.isSome = true ∧
    (fetchArtifact exState exWorldUnpackFail).fs.mkdirRan = true ∧
    (fetchArtifact exState exWorldUnpackFail).fs.unpackStarted = true ∧
    (fetchArtifact exState exWorldUnpackFail).fs.unpackCompleted = false := by
  decide

/-- Amended claim C7: on failures at the listing step, the selection step,
or the download step, the local backing directory is neither created nor
modified (and the temporary buffer file, once created, is always deleted
by the `with` block). On an extraction failure, however, the directory has
already been created by `mkdir_p` and unpacking has started without
completing, so the directory may be left partially populated; only the
temporary file is still cleaned up. -/
theorem claim_C7_amended_frame :
    ∀ (st : CacheState) (w : World), st.artifact_downloaded = false →
      ((w.listing = HttpOutcome.connError ∨
        (∃ s, w.listing = HttpOutcome.httpError s) ∨
        (∃ arts, w.listing = HttpOutcome.ok arts ∧
          selectArtifact st.artifact_name arts = none)) →
        (fetchArtifact st w).fs = FSEffect.noop) ∧
      (∀ arts a, w.listing = HttpOutcome.ok arts →
        selectArtifact st.artifact_name arts = some a →
        (w.download = HttpOutcome.connError ∨
          (∃ s, w.download = HttpOutcome.httpError s)) →
        (fetchArtifact st w).fs.mkdirRan = false ∧
        (fetchArtifact st w).fs.unpackStarted = false ∧
        (fetchArtifact st w).fs.tempFileDeleted = true) ∧
      (∀ arts a, w.listing = HttpOutcome.ok arts →
        selectArtifact st.artifact_name arts = some a →
        w.download = HttpOutcome.ok () → w.unpackOk = false →
        (fetchArtifact st w).error = some unpackError ∧
        (fetchArtifact st w).fs.mkdirRan = true ∧
        (fetchArtifact st w).fs.unpackStarted = true ∧
        (fetchArtifact st w).fs.unpackCompleted = false ∧
        (fetchArtifact st w).fs.tempFileDeleted = true) := by
  intro st w hdl
  refine ⟨?_, ?_, ?_⟩
  · intro hfail
    rcases w with ⟨listing, download, u⟩
    rcases hfail with hconn | ⟨s, hhttp⟩ | ⟨arts, hlist, hsel⟩
    · cases hconn
      simp [fetchArtifact, hdl]
    · cases hhttp
      simp [fetchArtifact, hdl]
    · cases hlist
      simp [fetchArtifact, hdl, hsel]
  · intro arts a hlist hsel hfail
    rcases w with ⟨listing, download, u⟩
    cases hlist
    rcases hfail with hconn | ⟨s, hhttp⟩
    · cases hconn
      simp [fetchArtifact, hdl, hsel]
    · cases hhttp
      simp [fetchArtifact, hdl, hsel]
  · intro arts a hlist hsel hdown hu
    rcases w with ⟨listing, download, u⟩
    cases hlist
    cases hdown
    cases hu
    simp [fetchArtifact, hdl, hsel]

/-- Witness for the amended C7 at a concrete download failure and a
concrete extraction failure. -/
theorem claim_C7_amended_frame_witness :
    ((fetchArtifact exState exWorldConnD).fs.mkdirRan = false ∧
      (fetchArtifact exState exWorldConnD).fs.unpackStarted = false ∧
      (fetchArtifact exState exWorldConnD).fs.tempFileDeleted = true) ∧
    ((fetchArtifact exState exWorldUnpackFail).error = some unpackError ∧
      (fetchArtifact exState exWorldUnpackFail).fs.mkdirRan = true ∧
      (fetchArtifact exState exWorldUnpackFail).fs.unpackStarted = true ∧
      (fetchArtifact exState exWorldUnpackFail).fs.unpackCompleted = false ∧
      (fetchArtifact exState exWorldUnpackFail).fs.tempFileDeleted = true) :=
  ⟨(claim_C7_amended_frame exState exWorldConnD rfl).2.1
      [exArt1, exArt2, exArt3] exArt2 rfl (by decide) (Or.inl rfl),
   (claim_C7_amended_frame exState exWorldUnpackFail rfl).2.2
      [exArt1, exArt2, exArt3] exArt2 rfl (by decide) rfl rfl⟩

/-- Evaluation of the C8 code bug. Lines 79-83 and 109-113 attach the
`Authorization` header unconditionally: `f"Bearer {self.token}"` with
`self.token = None` produces the literal credential `"Bearer None"`, so
with no `GITHUB_TOKEN` in the environment both requests still carry an
Authorization header — an invalid credential — although the code's own
comment (lines 61-62) says a token is unnecessary for public repositories.
The claim (header only attached when a token is configured; token-less
fetch remains valid) describes the intent, not the code. -/
theorem claim_C8_code_bug_eval :
    (GitHubArtifactDatabase.init "user" "repo" "db" "/home/u/.hypothesis/ci" none).token = none ∧
    (fetchArtifact (GitHubArtifactDatabase.init "user" "repo" "db" "/home/u/.hypothesis/ci" none)
        exWorldOk).requests.map (fun r => r.headers.lookup "Authorization") =
      [some "Bearer None", some "Bearer None"] := by
  decide

/-- Evaluation of the C9 code bug. The claim says the download request is
issued with the same headers as the listing request — identical `Accept`,
`X-GitHub-Api-Version` and `Authorization` values. `Accept` and
`Authorization` do match, and the download is streamed
(`stream=True`) with redirects followed (`allow_redirects=True`); but the
listing request's version header is the string `"2022-11-28 "` with a
trailing space (line 81) while the download request sends `"2022-11-28"`
(line 111), so the values are not identical — the trailing space is
evidently a typo. -/
theorem claim_C9_code_bug_eval :
    (fetchArtifact exState exWorldOk).requests.map
        (fun r => r.headers.lookup "X-GitHub-Api-Version") =
      [some "2022-11-28 ", some "2022-11-28"] ∧
    ("2022-11-28 " : String) ≠ "2022-11-28" ∧
    (fetchArtifact exState exWorldOk).requests.map
        (fun r => r.headers.lookup "Accept") =
      [some "application/vnd.github+json", some "application/vnd.github+json"] ∧
    (fetchArtifact exState exWorldOk).requests.map
        (fun r => r.headers.lookup "Authorization") =
      [some "Bearer tok", some "Bearer tok"] ∧
    (fetchArtifact exState exWorldOk).requests.map HttpRequest.stream =
      [false, true] ∧
    (fetchArtifact exState exWorldOk).requests.map HttpRequest.allow_redirects =
      [true, true] := by
  decide

/-- Claim C10: selection compares `created_at` values as raw strings
(sequences of code points) under lexicographic order — `createdLe` is
exactly that order — and the chosen descriptor is the last element, in
original listing order, among the name-matching descriptors after a stable
sort by that key: `selectArtifact` coincides with `lastMaxByCreatedAt`,
which returns a maximal element such that everything after it is strictly
smaller, i.e. the latest-in-order maximal element. The final conjunct
shows the tie case concretely: two matching descriptors with byte-equal
`created_at` — the one occurring later in the listing is selected. -/
theorem claim_C10_stable_last_max :
    (∀ nm arts, selectArtifact nm arts =
      lastMaxByCreatedAt (arts.filter (matchesName nm))) ∧
    (∀ (l : List Artifact) (a : Artifact), lastMaxByCreatedAt l = some a →
      a ∈ l ∧ (∀ b ∈ l, b.created_at.data ≤ a.created_at.data) ∧
      ∃ l₁ l₂, l = l₁ ++ a :: l₂ ∧
        ∀ b ∈ l₂, b.created_at.data < a.created_at.data) ∧
    selectArtifact "db" [exTie1, exTie2] = some exTie2 ∧ exTie1 ≠ exTie2 :=
  ⟨selectArtifact_eq_lastMax,
   fun _ _ h => ⟨lastMax_mem h, lastMax_isMax h, lastMax_splits h⟩,
   by decide, by decide⟩

/-- Witness for C10: the last-maximal characterisation applied to the
concrete tied listing. -/
theorem claim_C10_stable_last_max_witness :
    exTie2 ∈ [exTie1, exTie2] ∧
    (∀ b ∈ [exTie1, exTie2], b.created_at.data ≤ exTie2.created_at.data) ∧
    ∃ l₁ l₂, [exTie1, exTie2] = l₁ ++ exTie2 :: l₂ ∧
      ∀ b ∈ l₂, b.created_at.data < exTie2.created_at.data :=
  claim_C10_stable_last_max.2.1 [exTie1, exTie2] exTie2 (by decide)
